import Mathlib

/-!
Shallow embedding of the budget-governed transaction ledger of the
`learning-python` repository.  Two near-duplicate Python implementations
exist and both are embedded here:

* `Asg1` — `src/assignment-1-the-f-a-m-lizhiquan/` (`bank_account.py`,
  `budget.py`, `transaction.py`, `user.py`); budget dictionaries are keyed
  by the `BudgetCategory` enum.
* `Lab3` — `src/lab-3-getting-to-know-the-f-a-m-lizhiquan/`; budget
  dictionaries are keyed by the category name (a string).

Python floats are modelled as exact rationals (`ℚ`); threshold literals
`0.5, 0.75, 0.9, 1.2` become `1/2, 3/4, 9/10, 6/5`.  Mutation is modelled
by explicit state passing.  `print` side effects that matter to the spec
(warn / notify / lock / review messages) are modelled as an emitted list of
`EscAction` values; a rejection is identified by which rejection branch of
`record_transaction` fired.
-/

namespace FAM

/-- Escalation-side observable effects emitted by the
`_warn_and_lock_if_needed` hooks (each corresponds to one `print`/lock site
in the Python source). -/
inductive EscAction (κ : Type)
  /-- `_warn_nearing_exceed_budget(budget, exceeded_percent)` -/
  | warn (category : κ) (exceededPercent : Nat)
  /-- `_notify_exceeded_budget(budget)` (Lab3: the plain "You have exceeded" print) -/
  | notify (category : κ)
  /-- `_lock_budget(budget)` (Lab3: `budget.locked = True`) -/
  | lockBudget (category : κ)
  /-- the account-level lockout print -/
  | lockAccount
  /-- `print_transactions_for_review(budget)` -/
  | review (category : κ)
deriving DecidableEq

/-- Python `Budget` (both variants): category/name key, `total_amount`,
`amount_spent`, `_locked`.  The Lab3 variant calls the key field `name`. -/
structure Budget (κ : Type) where
  category : κ
  totalAmount : ℚ
  amountSpent : ℚ
  locked : Bool
deriving DecidableEq

/-- `Budget.__init__(category, total_amount)`: assigns the fields with no
validation whatsoever; `amount_spent = 0`, `_locked = False`. -/
def Budget.init {κ : Type} (category : κ) (totalAmount : ℚ) : Budget κ :=
  { category := category, totalAmount := totalAmount, amountSpent := 0, locked := false }

/-- `Budget.exceeded_ratio` (assignment-1 property): `amount_spent / total_amount`. -/
def Budget.exceededFrac {κ : Type} (b : Budget κ) : ℚ :=
  b.amountSpent / b.totalAmount

/-- `Budget.lock()`: sets `_locked = True`. -/
def Budget.lock {κ : Type} (b : Budget κ) : Budget κ :=
  { b with locked := true }

/-- Python `BudgetManager`: a dict of budgets keyed by category
(assignment-1) or name (lab-3), modelled as an association list with
unique-key dict semantics. -/
structure BudgetManager (κ : Type) where
  budgets : List (κ × Budget κ)
deriving DecidableEq

/-- `BudgetManager.get_budget(category)`: `self.budgets.get(category, None)`. -/
def BudgetManager.getBudget {κ : Type} [DecidableEq κ] (m : BudgetManager κ) (c : κ) :
    Option (Budget κ) :=
  (m.budgets.find? (fun p => decide (p.1 = c))).map Prod.snd

/-- In-place mutation of the budget object stored under key `c`
(Python mutates the shared `Budget` object, e.g. `budget.amount_spent += …`
or `budget.lock()`). -/
def BudgetManager.updateBudget {κ : Type} [DecidableEq κ] (m : BudgetManager κ) (c : κ)
    (f : Budget κ → Budget κ) : BudgetManager κ :=
  ⟨m.budgets.map (fun p => if p.1 = c then (p.1, f p.2) else p)⟩

/-- `BudgetManager.no_locked_budgets` property: counts budgets with
`locked == True`. -/
def BudgetManager.noLockedBudgets {κ : Type} (m : BudgetManager κ) : Nat :=
  (m.budgets.filter (fun p => p.2.locked)).length

/-- All budgets in the manager are unlocked. -/
def BudgetManager.allUnlocked {κ : Type} (m : BudgetManager κ) : Prop :=
  ∀ p ∈ m.budgets, p.2.locked = false

instance {κ : Type} (m : BudgetManager κ) : Decidable m.allUnlocked :=
  inferInstanceAs (Decidable (∀ p ∈ m.budgets, p.2.locked = false))

/-- Python `Transaction`: timestamp, amount, budget category, shop name. -/
structure Transaction (κ : Type) where
  timestamp : Nat
  amount : ℚ
  budgetCategory : κ
  shopName : String
deriving DecidableEq

/-- `UserType` enum; in the embedding it also stands for the dynamic class
of the account (`AngelBankAccount` / `TroublemakerBankAccount` /
`RebelBankAccount`). -/
inductive UserType
  | angel
  | troublemaker
  | rebel
deriving DecidableEq

/-- Which branch of `record_transaction` produced the result.  The three
rejection branches each print a distinct message and return `False`;
`raisesAttributeError` is the uncaught Python `AttributeError` raised by
`budget.locked` when `get_budget` returned `None`. -/
inductive RecordOutcome
  | rejectedAccountLocked
  | rejectedInsufficientFunds
  | rejectedBudgetLocked
  | raisesAttributeError
  | accepted
deriving DecidableEq

theorem getBudget_updateBudget_self {κ : Type} [DecidableEq κ]
    (m : BudgetManager κ) (c : κ) (f : Budget κ → Budget κ) :
    (m.updateBudget c f).getBudget c = (m.getBudget c).map f := by
  rcases m with ⟨l⟩
  induction l with
  | nil => rfl
  | cons p ps ih =>
    simp only [BudgetManager.updateBudget, BudgetManager.getBudget, List.map_cons] at ih ⊢
    by_cases h : p.1 = c
    · rw [if_pos h, List.find?_cons_of_pos _ (by simpa using h),
        List.find?_cons_of_pos _ (by simpa using h)]
      rfl
    · rw [if_neg h, List.find?_cons_of_neg _ (by simpa using h),
        List.find?_cons_of_neg _ (by simpa using h)]
      exact ih

theorem getBudget_updateBudget_ne {κ : Type} [DecidableEq κ]
    (m : BudgetManager κ) (c c' : κ) (f : Budget κ → Budget κ) (h : c' ≠ c) :
    (m.updateBudget c f).getBudget c' = m.getBudget c' := by
  rcases m with ⟨l⟩
  induction l with
  | nil => rfl
  | cons p ps ih =>
    simp only [BudgetManager.updateBudget, BudgetManager.getBudget, List.map_cons] at ih ⊢
    by_cases hp : p.1 = c
    · have hp' : ¬p.1 = c' := fun hc => h (hc.symm.trans hp)
      rw [if_pos hp, List.find?_cons_of_neg _ (by simpa using hp'),
        List.find?_cons_of_neg _ (by simpa using hp')]
      exact ih
    · by_cases hq : p.1 = c'
      · rw [if_neg hp, List.find?_cons_of_pos _ (by simpa using hq),
          List.find?_cons_of_pos _ (by simpa using hq)]
      · rw [if_neg hp, List.find?_cons_of_neg _ (by simpa using hq),
          List.find?_cons_of_neg _ (by simpa using hq)]
        exact ih

theorem allUnlocked_updateBudget {κ : Type} [DecidableEq κ]
    (m : BudgetManager κ) (c : κ) (f : Budget κ → Budget κ)
    (hf : ∀ b, (f b).locked = b.locked) (hm : m.allUnlocked) :
    (m.updateBudget c f).allUnlocked := by
  rcases m with ⟨l⟩
  intro p hp
  simp only [BudgetManager.updateBudget, List.mem_map] at hp
  rcases hp with ⟨q, hq, rfl⟩
  by_cases h : q.1 = c
  · simpa [h, hf] using hm q hq
  · simpa [h] using hm q hq

theorem allUnlocked_getBudget {κ : Type} [DecidableEq κ]
    (m : BudgetManager κ) (hm : m.allUnlocked) (c : κ) (b : Budget κ)
    (hb : m.getBudget c = some b) : b.locked = false := by
  unfold BudgetManager.getBudget at hb
  rcases hfind : m.budgets.find? (fun p => decide (p.1 = c)) with - | p
  · rw [hfind] at hb
    cases hb
  · rw [hfind] at hb
    obtain rfl : p.2 = b := by simpa using hb
    exact hm p (List.mem_of_find?_eq_some hfind)

/-! ### Assignment-1 implementation (`src/assignment-1-the-f-a-m-lizhiquan/`) -/

namespace Asg1

/-- `BudgetCategory` enum of `budget.py`. -/
inductive BudgetCategory
  | gamesAndEntertainment
  | clothingAndAccessories
  | eatingOut
  | miscellaneous
deriving DecidableEq

/-- `BankAccount` state (`bank_account.py`): the `userType` field stands for
the dynamic class (`AngelBankAccount` / `TroublemakerBankAccount` /
`RebelBankAccount`); `locked` is the `_locked` attribute. -/
structure BankAccount where
  userType : UserType
  bankAccountNo : String
  bankName : String
  bankBalance : ℚ
  transactions : List (Transaction BudgetCategory)
  budgetManager : BudgetManager BudgetCategory
  locked : Bool
deriving DecidableEq

/-- `_warn_and_lock_if_needed(transaction)`, dispatched on the dynamic class.
It re-fetches the budget for the transaction's category and branches on the
post-transaction `exceeded_ratio`.  Returns the updated account and the list
of emitted escalation effects.  The `none` arm of the budget lookup is
unreachable from `record_transaction` (the hook is called only after
`get_budget` returned a budget). -/
def warnAndLockIfNeeded (a : BankAccount) (t : Transaction BudgetCategory) :
    BankAccount × List (EscAction BudgetCategory) :=
  match a.budgetManager.getBudget t.budgetCategory with
  | none => (a, [])
  | some budget =>
    match a.userType with
    | .angel =>
      if budget.exceededFrac > 1 then
        (a, [.notify t.budgetCategory, .review t.budgetCategory])
      else if budget.exceededFrac > 9/10 then
        (a, [.warn t.budgetCategory 90, .review t.budgetCategory])
      else (a, [])
    | .troublemaker =>
      if budget.exceededFrac > 6/5 then
        ({ a with budgetManager := a.budgetManager.updateBudget t.budgetCategory Budget.lock },
          [.lockBudget t.budgetCategory, .review t.budgetCategory])
      else if budget.exceededFrac > 1 then
        (a, [.notify t.budgetCategory, .review t.budgetCategory])
      else if budget.exceededFrac > 3/4 then
        (a, [.warn t.budgetCategory 75, .review t.budgetCategory])
      else (a, [])
    | .rebel =>
      if budget.exceededFrac > 1 then
        let a1 : BankAccount :=
          { a with budgetManager := a.budgetManager.updateBudget t.budgetCategory Budget.lock }
        if 2 ≤ a1.budgetManager.noLockedBudgets then
          ({ a1 with locked := true },
            [.notify t.budgetCategory, .lockBudget t.budgetCategory,
              .review t.budgetCategory, .lockAccount])
        else
          (a1, [.notify t.budgetCategory, .lockBudget t.budgetCategory,
            .review t.budgetCategory])
      else if budget.exceededFrac > 1/2 then
        (a, [.warn t.budgetCategory 50, .review t.budgetCategory])
      else (a, [])

/-- The state after the three mutation lines of the accepting path of
`record_transaction` (append to history, debit balance, credit spend),
just before the `_warn_and_lock_if_needed` hook runs. -/
def acceptedInterim (a : BankAccount) (t : Transaction BudgetCategory) : BankAccount :=
  { a with
    transactions := a.transactions ++ [t],
    bankBalance := a.bankBalance - t.amount,
    budgetManager := a.budgetManager.updateBudget t.budgetCategory
      (fun b => { b with amountSpent := b.amountSpent + t.amount }) }

/-- `BankAccount.record_transaction(transaction)`.  Returns which branch
fired, the post-call account state, and the escalation effects emitted by
the hook (empty on any rejection). -/
def recordTransaction (a : BankAccount) (t : Transaction BudgetCategory) :
    RecordOutcome × BankAccount × List (EscAction BudgetCategory) :=
  if a.locked then (.rejectedAccountLocked, a, [])
  else if t.amount > a.bankBalance then (.rejectedInsufficientFunds, a, [])
  else
    match a.budgetManager.getBudget t.budgetCategory with
    | none => (.raisesAttributeError, a, [])
    | some budget =>
      if budget.locked then (.rejectedBudgetLocked, a, [])
      else
        let r := warnAndLockIfNeeded (acceptedInterim a t) t
        (.accepted, r.1, r.2)

/-- Folds a list of submitted transactions through `record_transaction`,
keeping the account state whatever each outcome was. -/
def applyAll (a : BankAccount) (ts : List (Transaction BudgetCategory)) : BankAccount :=
  ts.foldl (fun acc t => (recordTransaction acc t).2.1) a

end Asg1

/-! ### Lab-3 implementation (`src/lab-3-getting-to-know-the-f-a-m-lizhiquan/`)

Budgets are keyed by the category name (a string); the `Budget` record's
`category` field plays the role of lab-3's `Budget.name`.  The hooks first
test `amount_spent >= total_amount` and only then compute
`exceeded_ratio = amount_spent / total_amount - 1`; they print no review
lists. -/

namespace Lab3

/-- Lab-3 `BankAccount` state; `userType` stands for the dynamic class. -/
structure BankAccount where
  userType : UserType
  bankAccountNo : String
  bankName : String
  bankBalance : ℚ
  transactions : List (Transaction String)
  budgetManager : BudgetManager String
  locked : Bool
deriving DecidableEq

/-- Lab-3 `warn_and_lock_if_needed(transaction)`, dispatched on the dynamic
class.  The `none` arm of the budget lookup is unreachable from
`record_transaction`. -/
def warnAndLockIfNeeded (a : BankAccount) (t : Transaction String) :
    BankAccount × List (EscAction String) :=
  match a.budgetManager.getBudget t.budgetCategory with
  | none => (a, [])
  | some budget =>
    if budget.amountSpent ≥ budget.totalAmount then
      -- the local `exceeded_ratio = amount_spent / total_amount - 1` is inlined
      match a.userType with
      | .angel =>
        if budget.amountSpent / budget.totalAmount - 1 > 9/10 then
          (a, [.warn t.budgetCategory 90])
        else (a, [.notify t.budgetCategory])
      | .troublemaker =>
        if budget.amountSpent / budget.totalAmount - 1 > 6/5 then
          ({ a with budgetManager := a.budgetManager.updateBudget t.budgetCategory Budget.lock },
            [.lockBudget t.budgetCategory])
        else if budget.amountSpent / budget.totalAmount - 1 > 3/4 then
          (a, [.warn t.budgetCategory 75])
        else (a, [.notify t.budgetCategory])
      | .rebel =>
        if budget.amountSpent / budget.totalAmount - 1 > 1 then
          if 2 ≤ (a.budgetManager.updateBudget t.budgetCategory Budget.lock).noLockedBudgets then
            ({ a with
                budgetManager := a.budgetManager.updateBudget t.budgetCategory Budget.lock,
                locked := true },
              [.lockBudget t.budgetCategory, .lockAccount])
          else
            ({ a with budgetManager := a.budgetManager.updateBudget t.budgetCategory Budget.lock },
              [.lockBudget t.budgetCategory])
        else if budget.amountSpent / budget.totalAmount - 1 > 1/2 then
          (a, [.warn t.budgetCategory 50])
        else (a, [.notify t.budgetCategory])
    else (a, [])

/-- The state after the three mutation lines of the accepting path of the
lab-3 `record_transaction`, just before the hook runs. -/
def acceptedInterim (a : BankAccount) (t : Transaction String) : BankAccount :=
  { a with
    transactions := a.transactions ++ [t],
    bankBalance := a.bankBalance - t.amount,
    budgetManager := a.budgetManager.updateBudget t.budgetCategory
      (fun b => { b with amountSpent := b.amountSpent + t.amount }) }

/-- Lab-3 `BankAccount.record_transaction(transaction)`; same control flow
as the assignment-1 variant. -/
def recordTransaction (a : BankAccount) (t : Transaction String) :
    RecordOutcome × BankAccount × List (EscAction String) :=
  if a.locked then (.rejectedAccountLocked, a, [])
  else if t.amount > a.bankBalance then (.rejectedInsufficientFunds, a, [])
  else
    match a.budgetManager.getBudget t.budgetCategory with
    | none => (.raisesAttributeError, a, [])
    | some budget =>
      if budget.locked then (.rejectedBudgetLocked, a, [])
      else
        let r := warnAndLockIfNeeded (acceptedInterim a t) t
        (.accepted, r.1, r.2)

theorem record_accept_eq_lab (a : BankAccount) (t : Transaction String)
    (b : Budget String)
    (hl : a.locked = false) (hbal : t.amount ≤ a.bankBalance)
    (hb : a.budgetManager.getBudget t.budgetCategory = some b) (hbl : b.locked = false) :
    recordTransaction a t =
      (.accepted, (warnAndLockIfNeeded (acceptedInterim a t) t).1,
        (warnAndLockIfNeeded (acceptedInterim a t) t).2) := by
  simp [recordTransaction, hl, not_lt.mpr hbal, hb, hbl]

theorem getBudget_interim_self_lab (a : BankAccount) (t : Transaction String) :
    (acceptedInterim a t).budgetManager.getBudget t.budgetCategory
      = (a.budgetManager.getBudget t.budgetCategory).map
          (fun b => { b with amountSpent := b.amountSpent + t.amount }) :=
  getBudget_updateBudget_self ..

theorem getBudget_interim_ne_lab (a : BankAccount) (t : Transaction String)
    (c : String) (h : c ≠ t.budgetCategory) :
    (acceptedInterim a t).budgetManager.getBudget c = a.budgetManager.getBudget c :=
  getBudget_updateBudget_ne _ _ _ _ h

theorem hook_preserves_lab (a : BankAccount) (t : Transaction String) :
    (warnAndLockIfNeeded a t).1.transactions = a.transactions
    ∧ (warnAndLockIfNeeded a t).1.bankBalance = a.bankBalance
    ∧ (warnAndLockIfNeeded a t).1.userType = a.userType
    ∧ ((warnAndLockIfNeeded a t).1.budgetManager = a.budgetManager
        ∨ (warnAndLockIfNeeded a t).1.budgetManager
            = a.budgetManager.updateBudget t.budgetCategory Budget.lock) := by
  unfold warnAndLockIfNeeded
  split
  · exact ⟨rfl, rfl, rfl, Or.inl rfl⟩
  · split
    · split
      · split_ifs <;> exact ⟨rfl, rfl, rfl, Or.inl rfl⟩
      · split_ifs <;>
          first
          | exact ⟨rfl, rfl, rfl, Or.inl rfl⟩
          | exact ⟨rfl, rfl, rfl, Or.inr rfl⟩
      · split_ifs <;>
          first
          | exact ⟨rfl, rfl, rfl, Or.inl rfl⟩
          | exact ⟨rfl, rfl, rfl, Or.inr rfl⟩
    · exact ⟨rfl, rfl, rfl, Or.inl rfl⟩

theorem record_accept_spec_lab (a : BankAccount) (t : Transaction String)
    (b : Budget String)
    (hl : a.locked = false) (hbal : t.amount ≤ a.bankBalance)
    (hb : a.budgetManager.getBudget t.budgetCategory = some b) (hbl : b.locked = false) :
    (recordTransaction a t).1 = .accepted
    ∧ (recordTransaction a t).2.1.transactions = a.transactions ++ [t]
    ∧ (recordTransaction a t).2.1.bankBalance = a.bankBalance - t.amount
    ∧ (∃ b2, (recordTransaction a t).2.1.budgetManager.getBudget t.budgetCategory = some b2
        ∧ b2.amountSpent = b.amountSpent + t.amount
        ∧ b2.totalAmount = b.totalAmount
        ∧ b2.category = b.category)
    ∧ (∀ c, c ≠ t.budgetCategory →
        (recordTransaction a t).2.1.budgetManager.getBudget c
          = a.budgetManager.getBudget c) := by
  have he := record_accept_eq_lab a t b hl hbal hb hbl
  obtain ⟨ht, hbb, -, hm⟩ := hook_preserves_lab (acceptedInterim a t) t
  rw [he]
  refine ⟨rfl, ht.trans rfl, hbb.trans rfl, ?_, ?_⟩
  · rcases hm with hm | hm
    · refine ⟨{ b with amountSpent := b.amountSpent + t.amount }, ?_, rfl, rfl, rfl⟩
      show (warnAndLockIfNeeded (acceptedInterim a t) t).1.budgetManager.getBudget
        t.budgetCategory = _
      rw [hm, getBudget_interim_self_lab, hb]
      rfl
    · refine ⟨Budget.lock { b with amountSpent := b.amountSpent + t.amount }, ?_, rfl, rfl, rfl⟩
      show (warnAndLockIfNeeded (acceptedInterim a t) t).1.budgetManager.getBudget
        t.budgetCategory = _
      rw [hm, getBudget_updateBudget_self, getBudget_interim_self_lab, hb]
      rfl
  · intro c hc
    show (warnAndLockIfNeeded (acceptedInterim a t) t).1.budgetManager.getBudget c = _
    rcases hm with hm | hm
    · rw [hm, getBudget_interim_ne_lab a t c hc]
    · rw [hm, getBudget_updateBudget_ne _ _ _ _ hc, getBudget_interim_ne_lab a t c hc]

theorem hook_tm_eval_lab (a : BankAccount) (t : Transaction String) (b : Budget String)
    (hu : a.userType = .troublemaker)
    (hb : a.budgetManager.getBudget t.budgetCategory = some b) :
    warnAndLockIfNeeded a t
      = if b.amountSpent ≥ b.totalAmount then
          if b.amountSpent / b.totalAmount - 1 > 6/5 then
            ({ a with budgetManager := a.budgetManager.updateBudget t.budgetCategory Budget.lock },
              [.lockBudget t.budgetCategory])
          else if b.amountSpent / b.totalAmount - 1 > 3/4 then
            (a, [.warn t.budgetCategory 75])
          else (a, [.notify t.budgetCategory])
        else (a, []) := by
  simp only [warnAndLockIfNeeded, hb, hu]

end Lab3

namespace Asg1

theorem record_of_locked (a : BankAccount) (t : Transaction BudgetCategory)
    (h : a.locked = true) :
    recordTransaction a t = (.rejectedAccountLocked, a, []) := by
  simp [recordTransaction, h]

theorem record_accept_eq (a : BankAccount) (t : Transaction BudgetCategory)
    (b : Budget BudgetCategory)
    (hl : a.locked = false) (hbal : t.amount ≤ a.bankBalance)
    (hb : a.budgetManager.getBudget t.budgetCategory = some b) (hbl : b.locked = false) :
    recordTransaction a t =
      (.accepted, (warnAndLockIfNeeded (acceptedInterim a t) t).1,
        (warnAndLockIfNeeded (acceptedInterim a t) t).2) := by
  simp [recordTransaction, hl, not_lt.mpr hbal, hb, hbl]

theorem getBudget_interim_self (a : BankAccount) (t : Transaction BudgetCategory) :
    (acceptedInterim a t).budgetManager.getBudget t.budgetCategory
      = (a.budgetManager.getBudget t.budgetCategory).map
          (fun b => { b with amountSpent := b.amountSpent + t.amount }) :=
  getBudget_updateBudget_self ..

theorem getBudget_interim_ne (a : BankAccount) (t : Transaction BudgetCategory)
    (c : BudgetCategory) (h : c ≠ t.budgetCategory) :
    (acceptedInterim a t).budgetManager.getBudget c = a.budgetManager.getBudget c :=
  getBudget_updateBudget_ne _ _ _ _ h

theorem hook_preserves (a : BankAccount) (t : Transaction BudgetCategory) :
    (warnAndLockIfNeeded a t).1.transactions = a.transactions
    ∧ (warnAndLockIfNeeded a t).1.bankBalance = a.bankBalance
    ∧ (warnAndLockIfNeeded a t).1.userType = a.userType
    ∧ ((warnAndLockIfNeeded a t).1.budgetManager = a.budgetManager
        ∨ (warnAndLockIfNeeded a t).1.budgetManager
            = a.budgetManager.updateBudget t.budgetCategory Budget.lock) := by
  unfold warnAndLockIfNeeded
  repeat' split
  all_goals try simp
  all_goals (split <;> simp)

theorem hook_angel_id (a : BankAccount) (t : Transaction BudgetCategory)
    (h : a.userType = .angel) :
    (warnAndLockIfNeeded a t).1 = a := by
  unfold warnAndLockIfNeeded
  repeat' split
  all_goals simp_all

theorem hook_locked_of_ne_rebel (a : BankAccount) (t : Transaction BudgetCategory)
    (h : a.userType ≠ .rebel) :
    (warnAndLockIfNeeded a t).1.locked = a.locked := by
  unfold warnAndLockIfNeeded
  repeat' split
  all_goals simp_all

theorem record_state_cases (a : BankAccount) (t : Transaction BudgetCategory) :
    (recordTransaction a t).2.1 = a
    ∨ (a.locked = false
        ∧ (∃ b, a.budgetManager.getBudget t.budgetCategory = some b ∧ b.locked = false)
        ∧ (recordTransaction a t).2.1 = (warnAndLockIfNeeded (acceptedInterim a t) t).1) := by
  unfold recordTransaction
  repeat' split
  any_goals (left ; rfl)
  right
  refine ⟨by simp_all, ⟨_, by assumption, by simp_all⟩, rfl⟩

theorem record_userType (a : BankAccount) (t : Transaction BudgetCategory) :
    (recordTransaction a t).2.1.userType = a.userType := by
  rcases record_state_cases a t with h | ⟨-, -, h⟩
  · rw [h]
  · rw [h]
    exact (hook_preserves (acceptedInterim a t) t).2.2.1.trans rfl

theorem record_locked_of_ne_rebel (a : BankAccount) (t : Transaction BudgetCategory)
    (h : a.userType ≠ .rebel) :
    (recordTransaction a t).2.1.locked = a.locked := by
  rcases record_state_cases a t with hc | ⟨-, -, hc⟩
  · rw [hc]
  · rw [hc]
    exact (hook_locked_of_ne_rebel (acceptedInterim a t) t h).trans rfl

theorem record_budget_locked_persists (a : BankAccount) (t : Transaction BudgetCategory)
    (c : BudgetCategory) (b : Budget BudgetCategory)
    (hb : a.budgetManager.getBudget c = some b) (hl : b.locked = true) :
    ∃ b', (recordTransaction a t).2.1.budgetManager.getBudget c = some b'
      ∧ b'.locked = true := by
  rcases record_state_cases a t with hc | ⟨-, ⟨bt, hbt, hbtl⟩, hc⟩
  · exact ⟨b, by rw [hc]; exact hb, hl⟩
  · by_cases hcc : c = t.budgetCategory
    · subst hcc
      rw [hb] at hbt
      cases hbt
      rw [hl] at hbtl
      cases hbtl
    · rcases (hook_preserves (acceptedInterim a t) t).2.2.2 with hm | hm
      · refine ⟨b, ?_, hl⟩
        rw [hc, hm]
        exact (getBudget_interim_ne a t c hcc).trans hb
      · refine ⟨b, ?_, hl⟩
        rw [hc, hm, getBudget_updateBudget_ne _ _ _ _ hcc]
        exact (getBudget_interim_ne a t c hcc).trans hb

theorem applyAll_of_locked (a : BankAccount) (ts : List (Transaction BudgetCategory))
    (h : a.locked = true) : applyAll a ts = a := by
  induction ts with
  | nil => rfl
  | cons t ts ih =>
    have hstep : (recordTransaction a t).2.1 = a := by rw [record_of_locked a t h]
    calc applyAll a (t :: ts) = applyAll ((recordTransaction a t).2.1) ts := rfl
    _ = applyAll a ts := by rw [hstep]
    _ = a := ih

theorem applyAll_userType (a : BankAccount) (ts : List (Transaction BudgetCategory)) :
    (applyAll a ts).userType = a.userType := by
  induction ts generalizing a with
  | nil => rfl
  | cons t ts ih =>
    calc (applyAll a (t :: ts)).userType
        = (applyAll ((recordTransaction a t).2.1) ts).userType := rfl
    _ = (recordTransaction a t).2.1.userType := ih _
    _ = a.userType := record_userType a t

theorem applyAll_locked_of_ne_rebel (a : BankAccount) (ts : List (Transaction BudgetCategory))
    (h : a.userType ≠ .rebel) : (applyAll a ts).locked = a.locked := by
  induction ts generalizing a with
  | nil => rfl
  | cons t ts ih =>
    have h' : (recordTransaction a t).2.1.userType ≠ .rebel := by
      rw [record_userType a t]; exact h
    calc (applyAll a (t :: ts)).locked
        = (applyAll ((recordTransaction a t).2.1) ts).locked := rfl
    _ = (recordTransaction a t).2.1.locked := ih _ h'
    _ = a.locked := record_locked_of_ne_rebel a t h

theorem record_angel_inv (a : BankAccount) (t : Transaction BudgetCategory)
    (hu : a.userType = .angel) (hl : a.locked = false)
    (hm : a.budgetManager.allUnlocked) :
    (recordTransaction a t).2.1.userType = .angel
    ∧ (recordTransaction a t).2.1.locked = false
    ∧ (recordTransaction a t).2.1.budgetManager.allUnlocked := by
  rcases record_state_cases a t with hc | ⟨-, -, hc⟩
  · rw [hc]
    exact ⟨hu, hl, hm⟩
  · have hui : (acceptedInterim a t).userType = .angel := hu
    have hid := hook_angel_id (acceptedInterim a t) t hui
    rw [hc, hid]
    exact ⟨hu, hl, allUnlocked_updateBudget _ _ _ (fun b => rfl) hm⟩

theorem applyAll_angel_inv (a : BankAccount) (ts : List (Transaction BudgetCategory))
    (hu : a.userType = .angel) (hl : a.locked = false)
    (hm : a.budgetManager.allUnlocked) :
    (applyAll a ts).userType = .angel
    ∧ (applyAll a ts).locked = false
    ∧ (applyAll a ts).budgetManager.allUnlocked := by
  induction ts generalizing a with
  | nil => exact ⟨hu, hl, hm⟩
  | cons t ts ih =>
    obtain ⟨h1, h2, h3⟩ := record_angel_inv a t hu hl hm
    exact ih _ h1 h2 h3

theorem record_accept_spec (a : BankAccount) (t : Transaction BudgetCategory)
    (b : Budget BudgetCategory)
    (hl : a.locked = false) (hbal : t.amount ≤ a.bankBalance)
    (hb : a.budgetManager.getBudget t.budgetCategory = some b) (hbl : b.locked = false) :
    (recordTransaction a t).1 = .accepted
    ∧ (recordTransaction a t).2.1.transactions = a.transactions ++ [t]
    ∧ (recordTransaction a t).2.1.bankBalance = a.bankBalance - t.amount
    ∧ (∃ b2, (recordTransaction a t).2.1.budgetManager.getBudget t.budgetCategory = some b2
        ∧ b2.amountSpent = b.amountSpent + t.amount
        ∧ b2.totalAmount = b.totalAmount
        ∧ b2.category = b.category)
    ∧ (∀ c, c ≠ t.budgetCategory →
        (recordTransaction a t).2.1.budgetManager.getBudget c
          = a.budgetManager.getBudget c) := by
  have he := record_accept_eq a t b hl hbal hb hbl
  obtain ⟨ht, hbb, -, hm⟩ := hook_preserves (acceptedInterim a t) t
  rw [he]
  refine ⟨rfl, ht.trans rfl, hbb.trans rfl, ?_, ?_⟩
  · rcases hm with hm | hm
    · refine ⟨{ b with amountSpent := b.amountSpent + t.amount }, ?_, rfl, rfl, rfl⟩
      show (warnAndLockIfNeeded (acceptedInterim a t) t).1.budgetManager.getBudget
        t.budgetCategory = _
      rw [hm, getBudget_interim_self, hb]
      rfl
    · refine ⟨Budget.lock { b with amountSpent := b.amountSpent + t.amount }, ?_, rfl, rfl, rfl⟩
      show (warnAndLockIfNeeded (acceptedInterim a t) t).1.budgetManager.getBudget
        t.budgetCategory = _
      rw [hm, getBudget_updateBudget_self, getBudget_interim_self, hb]
      rfl
  · intro c hc
    show (warnAndLockIfNeeded (acceptedInterim a t) t).1.budgetManager.getBudget c = _
    rcases hm with hm | hm
    · rw [hm, getBudget_interim_ne a t c hc]
    · rw [hm, getBudget_updateBudget_ne _ _ _ _ hc, getBudget_interim_ne a t c hc]

theorem hook_angel_eval (a : BankAccount) (t : Transaction BudgetCategory)
    (b : Budget BudgetCategory) (hu : a.userType = .angel)
    (hb : a.budgetManager.getBudget t.budgetCategory = some b) :
    warnAndLockIfNeeded a t
      = if b.exceededFrac > 1 then
          (a, [.notify t.budgetCategory, .review t.budgetCategory])
        else if b.exceededFrac > 9/10 then
          (a, [.warn t.budgetCategory 90, .review t.budgetCategory])
        else (a, []) := by
  simp only [warnAndLockIfNeeded, hb, hu]

theorem hook_tm_eval (a : BankAccount) (t : Transaction BudgetCategory)
    (b : Budget BudgetCategory) (hu : a.userType = .troublemaker)
    (hb : a.budgetManager.getBudget t.budgetCategory = some b) :
    warnAndLockIfNeeded a t
      = if b.exceededFrac > 6/5 then
          ({ a with budgetManager := a.budgetManager.updateBudget t.budgetCategory Budget.lock },
            [.lockBudget t.budgetCategory, .review t.budgetCategory])
        else if b.exceededFrac > 1 then
          (a, [.notify t.budgetCategory, .review t.budgetCategory])
        else if b.exceededFrac > 3/4 then
          (a, [.warn t.budgetCategory 75, .review t.budgetCategory])
        else (a, []) := by
  simp only [warnAndLockIfNeeded, hb, hu]

theorem hook_rebel_eval (a : BankAccount) (t : Transaction BudgetCategory)
    (b : Budget BudgetCategory) (hu : a.userType = .rebel)
    (hb : a.budgetManager.getBudget t.budgetCategory = some b) :
    warnAndLockIfNeeded a t
      = if b.exceededFrac > 1 then
          (if 2 ≤ (a.budgetManager.updateBudget t.budgetCategory Budget.lock).noLockedBudgets
           then
            ({ a with
                budgetManager := a.budgetManager.updateBudget t.budgetCategory Budget.lock,
                locked := true },
              [.notify t.budgetCategory, .lockBudget t.budgetCategory,
                .review t.budgetCategory, .lockAccount])
           else
            ({ a with budgetManager := a.budgetManager.updateBudget t.budgetCategory Budget.lock },
              [.notify t.budgetCategory, .lockBudget t.budgetCategory,
                .review t.budgetCategory]))
        else if b.exceededFrac > 1/2 then
          (a, [.warn t.budgetCategory 50, .review t.budgetCategory])
        else (a, []) := by
  simp only [warnAndLockIfNeeded, hb, hu]

theorem applyAll_budget_locked_persists (a : BankAccount)
    (ts : List (Transaction BudgetCategory)) (c : BudgetCategory) (b : Budget BudgetCategory)
    (hb : a.budgetManager.getBudget c = some b) (hl : b.locked = true) :
    ∃ b', (applyAll a ts).budgetManager.getBudget c = some b' ∧ b'.locked = true := by
  induction ts generalizing a b with
  | nil => exact ⟨b, hb, hl⟩
  | cons t ts ih =>
    rcases record_budget_locked_persists a t c b hb hl with ⟨b', hb', hl'⟩
    exact ih _ _ hb' hl'

theorem tm_budget_locked_rejects (a2 : BankAccount)
    (hu2 : a2.userType = .troublemaker) (hl2 : a2.locked = false)
    (c : BudgetCategory) (b2 : Budget BudgetCategory)
    (hb2 : a2.budgetManager.getBudget c = some b2) (hlk : b2.locked = true) :
    ∀ (ts : List (Transaction BudgetCategory)) (t2 : Transaction BudgetCategory),
      t2.budgetCategory = c →
      t2.amount ≤ (applyAll a2 ts).bankBalance →
      (recordTransaction (applyAll a2 ts) t2).1 = .rejectedBudgetLocked := by
  intro ts t2 hcat hbal2
  have hne : a2.userType ≠ .rebel := by
    rw [hu2]
    exact fun hc => UserType.noConfusion hc
  have hNl : (applyAll a2 ts).locked = false :=
    (applyAll_locked_of_ne_rebel a2 ts hne).trans hl2
  obtain ⟨bN, hbN, hbNl⟩ := applyAll_budget_locked_persists a2 ts c b2 hb2 hlk
  simp [recordTransaction, hNl, not_lt.mpr hbal2, hcat, hbN, hbNl]

end Asg1

namespace Asg1

/-- `BudgetCreator.load_test_budget_manager()`: a manager holding a $100
budget for each of the four categories, in declaration order. -/
def loadTestBudgetManager : BudgetManager BudgetCategory :=
  ⟨[(.gamesAndEntertainment, Budget.init .gamesAndEntertainment 100),
    (.clothingAndAccessories, Budget.init .clothingAndAccessories 100),
    (.eatingOut, Budget.init .eatingOut 100),
    (.miscellaneous, Budget.init .miscellaneous 100)]⟩

/-- `BankAccountCreator.load_test_account()`: a Troublemaker account
`'123123'`/`'HSBC'` with balance 1000 over the test budgets. -/
def loadTestAccount : BankAccount :=
  ⟨.troublemaker, "123123", "HSBC", 1000, [], loadTestBudgetManager, false⟩

end Asg1

namespace Lab3

/-- Lab-3 `BudgetCreator.load_test_budgets()`. -/
def loadTestBudgets : BudgetManager String :=
  ⟨[("Games and Entertainment", Budget.init "Games and Entertainment" 100),
    ("Clothing and Accessories", Budget.init "Clothing and Accessories" 100),
    ("Eating Out", Budget.init "Eating Out" 100),
    ("Miscellaneous", Budget.init "Miscellaneous" 100)]⟩

/-- Lab-3 `BankAccountCreator.load_test_account()`. -/
def loadTestAccount : BankAccount :=
  ⟨.troublemaker, "123123", "HSBC", 1000, [], loadTestBudgets, false⟩

end Lab3

/-! ### Claim theorems -/

/-- Claim C3: while the account's `_locked` flag is true,
`record_transaction` rejects through the account-locked branch and returns
the account unchanged (balance, every budget's spent and locked flags, and
the transaction history are all those of the input state) with no
escalation effects — for every transaction, so in particular even when the
amount is within balance and the targeted budget exists and is unlocked;
the account-locked check precedes the insufficient-funds and budget-locked
checks. -/
theorem C3_locked_account_rejects_everything (a : Asg1.BankAccount)
    (t : Transaction Asg1.BudgetCategory) (h : a.locked = true) :
    Asg1.recordTransaction a t = (.rejectedAccountLocked, a, []) :=
  Asg1.record_of_locked a t h

/-- Witness for C3 at a concrete locked account and a transaction whose
amount is within balance and whose budget is registered and unlocked. -/
theorem C3_locked_account_rejects_everything_witness :
    Asg1.recordTransaction
        ⟨.troublemaker, "123123", "HSBC", 1000, [], Asg1.loadTestBudgetManager, true⟩
        ⟨0, 5, .eatingOut, "A&W"⟩
      = (.rejectedAccountLocked,
          ⟨.troublemaker, "123123", "HSBC", 1000, [], Asg1.loadTestBudgetManager, true⟩, []) :=
  C3_locked_account_rejects_everything _ _ rfl

/-- Claim C7: with the account unlocked, `record_transaction` rejects
through the insufficient-funds branch exactly when the amount strictly
exceeds the balance, and then returns the account unchanged with no
effects; an amount equal to the balance passes the funds check and — if the
budget is registered and unlocked — is accepted, leaving balance exactly 0. -/
theorem C7_insufficient_funds_boundary (a : Asg1.BankAccount)
    (t : Transaction Asg1.BudgetCategory) (hl : a.locked = false) :
    ((Asg1.recordTransaction a t).1 = .rejectedInsufficientFunds ↔ a.bankBalance < t.amount)
    ∧ (a.bankBalance < t.amount →
        Asg1.recordTransaction a t = (.rejectedInsufficientFunds, a, []))
    ∧ (∀ b, t.amount = a.bankBalance →
        a.budgetManager.getBudget t.budgetCategory = some b → b.locked = false →
        (Asg1.recordTransaction a t).1 = .accepted
          ∧ (Asg1.recordTransaction a t).2.1.bankBalance = 0) := by
  have hrej : a.bankBalance < t.amount →
      Asg1.recordTransaction a t = (.rejectedInsufficientFunds, a, []) := by
    intro hlt
    simp [Asg1.recordTransaction, hl, hlt]
  refine ⟨⟨?_, fun hlt => by rw [hrej hlt]⟩, hrej, ?_⟩
  · intro hout
    by_contra hge
    push_neg at hge
    rcases hopt : a.budgetManager.getBudget t.budgetCategory with - | b
    · have : (Asg1.recordTransaction a t).1 = .raisesAttributeError := by
        simp [Asg1.recordTransaction, hl, not_lt.mpr hge, hopt]
      exact RecordOutcome.noConfusion (this.symm.trans hout)
    · rcases hlk : b.locked with - | -
      · have := (Asg1.record_accept_spec a t b hl hge hopt hlk).1
        exact RecordOutcome.noConfusion (this.symm.trans hout)
      · have : (Asg1.recordTransaction a t).1 = .rejectedBudgetLocked := by
          simp [Asg1.recordTransaction, hl, not_lt.mpr hge, hopt, hlk]
        exact RecordOutcome.noConfusion (this.symm.trans hout)
  · intro b heq hb hbl
    have hbal : t.amount ≤ a.bankBalance := le_of_eq heq
    obtain ⟨hacc, -, hbb, -, -⟩ := Asg1.record_accept_spec a t b hl hbal hb hbl
    exact ⟨hacc, by rw [hbb, heq, sub_self]⟩

/-- Witness for C7 at a concrete unlocked account: a transaction of 1001
(balance 1000) is rejected as insufficient, and one of exactly 1000 is
accepted with closing balance 0. -/
theorem C7_insufficient_funds_boundary_witness :
    ((Asg1.recordTransaction Asg1.loadTestAccount ⟨0, 1001, .eatingOut, "A&W"⟩).1
        = .rejectedInsufficientFunds ↔ (1000 : ℚ) < 1001)
    ∧ ((1000 : ℚ) < 1001 →
        Asg1.recordTransaction Asg1.loadTestAccount ⟨0, 1001, .eatingOut, "A&W"⟩
          = (.rejectedInsufficientFunds, Asg1.loadTestAccount, []))
    ∧ (∀ b, (1000 : ℚ) = 1000 →
        Asg1.loadTestAccount.budgetManager.getBudget .eatingOut = some b →
        b.locked = false →
        (Asg1.recordTransaction Asg1.loadTestAccount ⟨0, 1000, .eatingOut, "A&W"⟩).1
            = .accepted
          ∧ (Asg1.recordTransaction Asg1.loadTestAccount
              ⟨0, 1000, .eatingOut, "A&W"⟩).2.1.bankBalance = 0) := by
  have h1 := C7_insufficient_funds_boundary Asg1.loadTestAccount
    ⟨0, 1001, .eatingOut, "A&W"⟩ rfl
  have h2 := C7_insufficient_funds_boundary Asg1.loadTestAccount
    ⟨0, 1000, .eatingOut, "A&W"⟩ rfl
  exact ⟨h1.1, h1.2.1, h2.2.2⟩

/-- Claim C2: on every accepted transaction (account not locked, amount at
most the balance, budget registered and not locked), both implementations
append the transaction to the history, set the new balance to the old
balance minus the amount, set the targeted budget's spent amount to its old
spent amount plus the amount — exactly, in exact rational arithmetic — and
leave every other category's budget unchanged. -/
theorem C2_accepted_transaction_updates_exactly
    (a : Asg1.BankAccount) (t : Transaction Asg1.BudgetCategory)
    (b : Budget Asg1.BudgetCategory)
    (hl : a.locked = false) (hbal : t.amount ≤ a.bankBalance)
    (hb : a.budgetManager.getBudget t.budgetCategory = some b) (hbl : b.locked = false)
    (la : Lab3.BankAccount) (lt : Transaction String) (lb : Budget String)
    (gl : la.locked = false) (gbal : lt.amount ≤ la.bankBalance)
    (gb : la.budgetManager.getBudget lt.budgetCategory = some lb) (gbl : lb.locked = false) :
    ((Asg1.recordTransaction a t).1 = .accepted
      ∧ (Asg1.recordTransaction a t).2.1.transactions = a.transactions ++ [t]
      ∧ (Asg1.recordTransaction a t).2.1.bankBalance = a.bankBalance - t.amount
      ∧ (∃ b2, (Asg1.recordTransaction a t).2.1.budgetManager.getBudget t.budgetCategory
            = some b2
          ∧ b2.amountSpent = b.amountSpent + t.amount
          ∧ b2.totalAmount = b.totalAmount
          ∧ b2.category = b.category)
      ∧ (∀ c, c ≠ t.budgetCategory →
          (Asg1.recordTransaction a t).2.1.budgetManager.getBudget c
            = a.budgetManager.getBudget c))
    ∧ ((Lab3.recordTransaction la lt).1 = .accepted
      ∧ (Lab3.recordTransaction la lt).2.1.transactions = la.transactions ++ [lt]
      ∧ (Lab3.recordTransaction la lt).2.1.bankBalance = la.bankBalance - lt.amount
      ∧ (∃ b2, (Lab3.recordTransaction la lt).2.1.budgetManager.getBudget lt.budgetCategory
            = some b2
          ∧ b2.amountSpent = lb.amountSpent + lt.amount
          ∧ b2.totalAmount = lb.totalAmount
          ∧ b2.category = lb.category)
      ∧ (∀ c, c ≠ lt.budgetCategory →
          (Lab3.recordTransaction la lt).2.1.budgetManager.getBudget c
            = la.budgetManager.getBudget c)) :=
  ⟨Asg1.record_accept_spec a t b hl hbal hb hbl,
    Lab3.record_accept_spec_lab la lt lb gl gbal gb gbl⟩

/-- Witness for C2 at the test accounts of both implementations: a $40
Eating Out transaction against a fresh $100 budget and a $1000 balance. -/
theorem C2_accepted_transaction_updates_exactly_witness :
    ((Asg1.recordTransaction Asg1.loadTestAccount ⟨0, 40, .eatingOut, "A&W"⟩).1 = .accepted
      ∧ (Asg1.recordTransaction Asg1.loadTestAccount
          ⟨0, 40, .eatingOut, "A&W"⟩).2.1.transactions = [] ++ [⟨0, 40, .eatingOut, "A&W"⟩]
      ∧ (Asg1.recordTransaction Asg1.loadTestAccount
          ⟨0, 40, .eatingOut, "A&W"⟩).2.1.bankBalance = 1000 - 40
      ∧ (∃ b2, (Asg1.recordTransaction Asg1.loadTestAccount
            ⟨0, 40, .eatingOut, "A&W"⟩).2.1.budgetManager.getBudget .eatingOut = some b2
          ∧ b2.amountSpent = 0 + 40
          ∧ b2.totalAmount = 100
          ∧ b2.category = .eatingOut)
      ∧ (∀ c, c ≠ Asg1.BudgetCategory.eatingOut →
          (Asg1.recordTransaction Asg1.loadTestAccount
            ⟨0, 40, .eatingOut, "A&W"⟩).2.1.budgetManager.getBudget c
            = Asg1.loadTestBudgetManager.getBudget c))
    ∧ ((Lab3.recordTransaction Lab3.loadTestAccount ⟨0, 40, "Eating Out", "A&W"⟩).1 = .accepted
      ∧ (Lab3.recordTransaction Lab3.loadTestAccount
          ⟨0, 40, "Eating Out", "A&W"⟩).2.1.transactions = [] ++ [⟨0, 40, "Eating Out", "A&W"⟩]
      ∧ (Lab3.recordTransaction Lab3.loadTestAccount
          ⟨0, 40, "Eating Out", "A&W"⟩).2.1.bankBalance = 1000 - 40
      ∧ (∃ b2, (Lab3.recordTransaction Lab3.loadTestAccount
            ⟨0, 40, "Eating Out", "A&W"⟩).2.1.budgetManager.getBudget "Eating Out" = some b2
          ∧ b2.amountSpent = 0 + 40
          ∧ b2.totalAmount = 100
          ∧ b2.category = "Eating Out")
      ∧ (∀ c, c ≠ "Eating Out" →
          (Lab3.recordTransaction Lab3.loadTestAccount
            ⟨0, 40, "Eating Out", "A&W"⟩).2.1.budgetManager.getBudget c
            = Lab3.loadTestBudgets.getBudget c)) :=
  C2_accepted_transaction_updates_exactly
    Asg1.loadTestAccount ⟨0, 40, .eatingOut, "A&W"⟩ (Budget.init .eatingOut 100)
    rfl (by decide) rfl rfl
    Lab3.loadTestAccount ⟨0, 40, "Eating Out", "A&W"⟩ (Budget.init "Eating Out" 100)
    rfl (by decide) rfl rfl

/-- Claim C10 (implicit): `record_transaction` never validates that the
amount is positive — in both implementations, a transaction with
`amount <= 0` submitted to an unlocked account with non-negative balance
(the balance is non-negative at construction and `record_transaction`
preserves this) against a registered, unlocked budget is accepted,
appended to history and applied, so a strictly negative amount strictly
increases the balance and strictly decreases the budget's spent amount. -/
theorem C10_nonpositive_amounts_accepted
    (a : Asg1.BankAccount) (t : Transaction Asg1.BudgetCategory)
    (b : Budget Asg1.BudgetCategory)
    (hl : a.locked = false) (hnn : 0 ≤ a.bankBalance) (hamt : t.amount ≤ 0)
    (hb : a.budgetManager.getBudget t.budgetCategory = some b) (hbl : b.locked = false)
    (la : Lab3.BankAccount) (lt : Transaction String) (lb : Budget String)
    (gl : la.locked = false) (gnn : 0 ≤ la.bankBalance) (gamt : lt.amount ≤ 0)
    (gb : la.budgetManager.getBudget lt.budgetCategory = some lb) (gbl : lb.locked = false) :
    ((Asg1.recordTransaction a t).1 = .accepted
      ∧ (Asg1.recordTransaction a t).2.1.transactions = a.transactions ++ [t]
      ∧ (Asg1.recordTransaction a t).2.1.bankBalance = a.bankBalance - t.amount
      ∧ (t.amount < 0 → a.bankBalance < (Asg1.recordTransaction a t).2.1.bankBalance)
      ∧ (∃ b2, (Asg1.recordTransaction a t).2.1.budgetManager.getBudget t.budgetCategory
            = some b2
          ∧ b2.amountSpent = b.amountSpent + t.amount
          ∧ (t.amount < 0 → b2.amountSpent < b.amountSpent)))
    ∧ ((Lab3.recordTransaction la lt).1 = .accepted
      ∧ (Lab3.recordTransaction la lt).2.1.transactions = la.transactions ++ [lt]
      ∧ (Lab3.recordTransaction la lt).2.1.bankBalance = la.bankBalance - lt.amount
      ∧ (lt.amount < 0 → la.bankBalance < (Lab3.recordTransaction la lt).2.1.bankBalance)
      ∧ (∃ b2, (Lab3.recordTransaction la lt).2.1.budgetManager.getBudget lt.budgetCategory
            = some b2
          ∧ b2.amountSpent = lb.amountSpent + lt.amount
          ∧ (lt.amount < 0 → b2.amountSpent < lb.amountSpent))) := by
  obtain ⟨ha1, ha2, ha3, ⟨b2, hb2, hsp, -, -⟩, -⟩ :=
    Asg1.record_accept_spec a t b hl (hamt.trans hnn) hb hbl
  obtain ⟨hl1, hl2, hl3, ⟨lb2, hlb2, hlsp, -, -⟩, -⟩ :=
    Lab3.record_accept_spec_lab la lt lb gl (gamt.trans gnn) gb gbl
  refine ⟨⟨ha1, ha2, ha3, ?_, b2, hb2, hsp, ?_⟩, hl1, hl2, hl3, ?_, lb2, hlb2, hlsp, ?_⟩
  · intro hneg
    rw [ha3]
    linarith
  · intro hneg
    rw [hsp]
    linarith
  · intro hneg
    rw [hl3]
    linarith
  · intro hneg
    rw [hlsp]
    linarith

/-- Witness for C10: a −25 transaction on the test accounts of both
implementations is accepted; the balance rises from 1000 to 1025 and the
budget's spent amount falls from 0 to −25. -/
theorem C10_nonpositive_amounts_accepted_witness :
    ((Asg1.recordTransaction Asg1.loadTestAccount ⟨0, -25, .eatingOut, "A&W"⟩).1 = .accepted
      ∧ (Asg1.recordTransaction Asg1.loadTestAccount
          ⟨0, -25, .eatingOut, "A&W"⟩).2.1.transactions = [] ++ [⟨0, -25, .eatingOut, "A&W"⟩]
      ∧ (Asg1.recordTransaction Asg1.loadTestAccount
          ⟨0, -25, .eatingOut, "A&W"⟩).2.1.bankBalance = 1000 - (-25)
      ∧ ((-25 : ℚ) < 0 → (1000 : ℚ) < (Asg1.recordTransaction Asg1.loadTestAccount
          ⟨0, -25, .eatingOut, "A&W"⟩).2.1.bankBalance)
      ∧ (∃ b2, (Asg1.recordTransaction Asg1.loadTestAccount
            ⟨0, -25, .eatingOut, "A&W"⟩).2.1.budgetManager.getBudget .eatingOut = some b2
          ∧ b2.amountSpent = 0 + (-25)
          ∧ ((-25 : ℚ) < 0 → b2.amountSpent < 0)))
    ∧ ((Lab3.recordTransaction Lab3.loadTestAccount ⟨0, -25, "Eating Out", "A&W"⟩).1 = .accepted
      ∧ (Lab3.recordTransaction Lab3.loadTestAccount
          ⟨0, -25, "Eating Out", "A&W"⟩).2.1.transactions
            = [] ++ [⟨0, -25, "Eating Out", "A&W"⟩]
      ∧ (Lab3.recordTransaction Lab3.loadTestAccount
          ⟨0, -25, "Eating Out", "A&W"⟩).2.1.bankBalance = 1000 - (-25)
      ∧ ((-25 : ℚ) < 0 → (1000 : ℚ) < (Lab3.recordTransaction Lab3.loadTestAccount
          ⟨0, -25, "Eating Out", "A&W"⟩).2.1.bankBalance)
      ∧ (∃ b2, (Lab3.recordTransaction Lab3.loadTestAccount
            ⟨0, -25, "Eating Out", "A&W"⟩).2.1.budgetManager.getBudget "Eating Out" = some b2
          ∧ b2.amountSpent = 0 + (-25)
          ∧ ((-25 : ℚ) < 0 → b2.amountSpent < 0))) :=
  C10_nonpositive_amounts_accepted
    Asg1.loadTestAccount ⟨0, -25, .eatingOut, "A&W"⟩ (Budget.init .eatingOut 100)
    rfl (by decide) (by decide) rfl rfl
    Lab3.loadTestAccount ⟨0, -25, "Eating Out", "A&W"⟩ (Budget.init "Eating Out" 100)
    rfl (by decide) (by decide) rfl rfl

/-- Claim C9 counterexample: the claim asserts the lab-3 nominal "75%"
Troublemaker warning triggers only when spent is between 100% and 175% of
the allocation.  In fact, on a lab-3 Troublemaker account whose $100
Eating Out budget holds spent = 180 (180% of allocation, outside the
claimed band) the hook emits exactly the 75% warning; and at spent = 150
(inside the claimed band) it emits the plain exceeded notification, not
the warning. -/
theorem C9_counterexample :
    ((Lab3.warnAndLockIfNeeded
        ⟨.troublemaker, "123123", "HSBC", 820, [],
          ⟨[("Eating Out", ⟨"Eating Out", 100, 180, false⟩)]⟩, false⟩
        ⟨0, 180, "Eating Out", "A&W"⟩).2 = [.warn "Eating Out" 75]
      ∧ ¬((180 : ℚ) ≤ 175/100 * 100))
    ∧ ((Lab3.warnAndLockIfNeeded
        ⟨.troublemaker, "123123", "HSBC", 850, [],
          ⟨[("Eating Out", ⟨"Eating Out", 100, 150, false⟩)]⟩, false⟩
        ⟨1, 150, "Eating Out", "A&W"⟩).2 = [.notify "Eating Out"]
      ∧ (100 : ℚ) ≤ 150 ∧ (150 : ℚ) ≤ 175/100 * 100) := by
  refine ⟨⟨?_, by norm_num⟩, ?_, by norm_num, by norm_num⟩
  · simp +decide only [Lab3.warnAndLockIfNeeded, BudgetManager.getBudget,
      BudgetManager.updateBudget, Budget.lock, List.find?]
    norm_num
  · simp +decide only [Lab3.warnAndLockIfNeeded, BudgetManager.getBudget,
      BudgetManager.updateBudget, Budget.lock, List.find?]
    norm_num

/-- Claim C9 as amended: the two duplicated implementations are not
equivalent — the lab-3 variant computes the exceeded ratio as
`spent/allocated - 1` and only when `spent >= allocated`, so its nominal
"75%" Troublemaker warning triggers exactly when spent/allocated lies in
(1.75, 2.2] (between 175% and 220% of the allocation), whereas the
assignment-1 variant warns at 75% exactly when spent/allocated lies in
(0.75, 1]. -/
theorem C9_amended_divergent_bands
    (la : Lab3.BankAccount) (lt : Transaction String) (lb : Budget String)
    (hu : la.userType = .troublemaker)
    (hb : la.budgetManager.getBudget lt.budgetCategory = some lb)
    (hpos : 0 < lb.totalAmount)
    (a : Asg1.BankAccount) (t : Transaction Asg1.BudgetCategory)
    (b : Budget Asg1.BudgetCategory)
    (hu' : a.userType = .troublemaker)
    (hb' : a.budgetManager.getBudget t.budgetCategory = some b)
    (hpos' : 0 < b.totalAmount) :
    ((Lab3.warnAndLockIfNeeded la lt).2 = [.warn lt.budgetCategory 75]
      ↔ 7/4 * lb.totalAmount < lb.amountSpent
        ∧ lb.amountSpent ≤ 11/5 * lb.totalAmount)
    ∧ ((Asg1.warnAndLockIfNeeded a t).2
        = [.warn t.budgetCategory 75, .review t.budgetCategory]
      ↔ 3/4 * b.totalAmount < b.amountSpent ∧ b.amountSpent ≤ b.totalAmount) := by
  constructor
  · rw [Lab3.hook_tm_eval_lab la lt lb hu hb]
    by_cases hge : lb.amountSpent ≥ lb.totalAmount
    · rw [if_pos hge]
      by_cases h65 : lb.amountSpent / lb.totalAmount - 1 > 6/5
      · rw [if_pos h65]
        apply iff_of_false
        · simp
        · rintro ⟨-, hle⟩
          rw [gt_iff_lt, lt_sub_iff_add_lt, lt_div_iff₀ hpos] at h65
          linarith
      · by_cases h34 : lb.amountSpent / lb.totalAmount - 1 > 3/4
        · rw [if_neg h65, if_pos h34]
          apply iff_of_true rfl
          constructor
          · rw [gt_iff_lt, lt_sub_iff_add_lt, lt_div_iff₀ hpos] at h34
            linarith
          · rw [gt_iff_lt, not_lt, sub_le_iff_le_add, div_le_iff₀ hpos] at h65
            linarith
        · rw [if_neg h65, if_neg h34]
          apply iff_of_false
          · simp
          · rintro ⟨hgt, -⟩
            rw [gt_iff_lt, not_lt, sub_le_iff_le_add, div_le_iff₀ hpos] at h34
            linarith
    · rw [if_neg hge]
      apply iff_of_false
      · simp
      · rintro ⟨hgt, -⟩
        rw [ge_iff_le, not_le] at hge
        linarith
  · rw [Asg1.hook_tm_eval a t b hu' hb']
    simp only [Budget.exceededFrac]
    by_cases h65 : b.amountSpent / b.totalAmount > 6/5
    · rw [if_pos h65]
      apply iff_of_false
      · simp
      · rintro ⟨-, hle⟩
        rw [gt_iff_lt, lt_div_iff₀ hpos'] at h65
        linarith
    · by_cases h1 : b.amountSpent / b.totalAmount > 1
      · rw [if_neg h65, if_pos h1]
        apply iff_of_false
        · simp
        · rintro ⟨-, hle⟩
          rw [gt_iff_lt, lt_div_iff₀ hpos'] at h1
          linarith
      · by_cases h34 : b.amountSpent / b.totalAmount > 3/4
        · rw [if_neg h65, if_neg h1, if_pos h34]
          apply iff_of_true rfl
          constructor
          · rw [gt_iff_lt, lt_div_iff₀ hpos'] at h34
            linarith
          · rw [gt_iff_lt, not_lt, div_le_iff₀ hpos'] at h1
            linarith
        · rw [if_neg h65, if_neg h1, if_neg h34]
          apply iff_of_false
          · simp
          · rintro ⟨hgt, -⟩
            rw [gt_iff_lt, not_lt, div_le_iff₀ hpos'] at h34
            linarith

/-- Witness for the amended C9 at the test accounts of both variants with
their fresh $100 Eating Out budgets. -/
theorem C9_amended_divergent_bands_witness :
    ((Lab3.warnAndLockIfNeeded Lab3.loadTestAccount ⟨0, 40, "Eating Out", "A&W"⟩).2
        = [.warn "Eating Out" 75]
      ↔ (7 : ℚ)/4 * 100 < 0 ∧ (0 : ℚ) ≤ 11/5 * 100)
    ∧ ((Asg1.warnAndLockIfNeeded Asg1.loadTestAccount ⟨0, 40, .eatingOut, "A&W"⟩).2
        = [.warn .eatingOut 75, .review .eatingOut]
      ↔ (3 : ℚ)/4 * 100 < 0 ∧ (0 : ℚ) ≤ 100) :=
  C9_amended_divergent_bands
    Lab3.loadTestAccount ⟨0, 40, "Eating Out", "A&W"⟩ (Budget.init "Eating Out" 100)
    rfl rfl (by decide)
    Asg1.loadTestAccount ⟨0, 40, .eatingOut, "A&W"⟩ (Budget.init .eatingOut 100)
    rfl rfl (by decide)

/-- Claim C1: Strict (Rebel) cascading lock — whenever an accepted
transaction on a Rebel account pushes a budget's post-transaction exceeded
ratio strictly above 1, that budget is locked; if after that lock the
registry counts at least 2 locked budgets, the account's locked flag is set
to true and every transaction submitted afterward — after any further
sequence of submissions, and in particular transactions against a
still-unlocked budget with sufficient balance — is rejected through the
account-locked branch. -/
theorem C1_strict_cascading_lock (a : Asg1.BankAccount)
    (t : Transaction Asg1.BudgetCategory) (b : Budget Asg1.BudgetCategory)
    (hu : a.userType = .rebel) (hl : a.locked = false)
    (hbal : t.amount ≤ a.bankBalance)
    (hb : a.budgetManager.getBudget t.budgetCategory = some b) (hbl : b.locked = false)
    (hr : 1 < (b.amountSpent + t.amount) / b.totalAmount) :
    (Asg1.recordTransaction a t).1 = .accepted
    ∧ (∃ b2, (Asg1.recordTransaction a t).2.1.budgetManager.getBudget t.budgetCategory
        = some b2 ∧ b2.locked = true)
    ∧ (2 ≤ (Asg1.recordTransaction a t).2.1.budgetManager.noLockedBudgets →
        (Asg1.recordTransaction a t).2.1.locked = true
        ∧ ∀ (ts : List (Transaction Asg1.BudgetCategory))
            (t2 : Transaction Asg1.BudgetCategory),
          (Asg1.recordTransaction
              (Asg1.applyAll (Asg1.recordTransaction a t).2.1 ts) t2).1
            = .rejectedAccountLocked) := by
  have he := Asg1.record_accept_eq a t b hl hbal hb hbl
  have hbi : (Asg1.acceptedInterim a t).budgetManager.getBudget t.budgetCategory
      = some { b with amountSpent := b.amountSpent + t.amount } := by
    rw [Asg1.getBudget_interim_self, hb]
    rfl
  have hui : (Asg1.acceptedInterim a t).userType = .rebel := hu
  have heval := Asg1.hook_rebel_eval (Asg1.acceptedInterim a t) t _ hui hbi
  have hstate : (Asg1.recordTransaction a t).2.1
      = if 2 ≤ ((Asg1.acceptedInterim a t).budgetManager.updateBudget t.budgetCategory
            Budget.lock).noLockedBudgets
        then { Asg1.acceptedInterim a t with
                budgetManager := (Asg1.acceptedInterim a t).budgetManager.updateBudget
                  t.budgetCategory Budget.lock,
                locked := true }
        else { Asg1.acceptedInterim a t with
                budgetManager := (Asg1.acceptedInterim a t).budgetManager.updateBudget
                  t.budgetCategory Budget.lock } := by
    rw [he]
    show (Asg1.warnAndLockIfNeeded (Asg1.acceptedInterim a t) t).1 = _
    rw [heval]
    simp only [Budget.exceededFrac]
    rw [if_pos hr]
    split <;> rfl
  refine ⟨by rw [he], ?_, ?_⟩
  · refine ⟨Budget.lock { b with amountSpent := b.amountSpent + t.amount }, ?_, rfl⟩
    rw [hstate]
    split
    · show ((Asg1.acceptedInterim a t).budgetManager.updateBudget t.budgetCategory
          Budget.lock).getBudget t.budgetCategory = _
      rw [getBudget_updateBudget_self, hbi]
      rfl
    · show ((Asg1.acceptedInterim a t).budgetManager.updateBudget t.budgetCategory
          Budget.lock).getBudget t.budgetCategory = _
      rw [getBudget_updateBudget_self, hbi]
      rfl
  · intro h2
    rw [hstate] at h2 ⊢
    by_cases hC : 2 ≤ ((Asg1.acceptedInterim a t).budgetManager.updateBudget
        t.budgetCategory Budget.lock).noLockedBudgets
    · rw [if_pos hC]
      refine ⟨rfl, ?_⟩
      intro ts t2
      rw [Asg1.applyAll_of_locked _ ts rfl, Asg1.record_of_locked _ t2 rfl]
    · rw [if_neg hC] at h2
      exact absurd h2 hC

/-- A Rebel account state in which the Eating Out budget has already been
overspent and locked (the state the Strict policy produces after one $101
Eating Out transaction against the test budgets); every other budget is
fresh and unlocked, the account itself is not yet locked. -/
def rebelOneLocked : Asg1.BankAccount :=
  ⟨.rebel, "123123", "HSBC", 899, [⟨0, 101, .eatingOut, "A&W"⟩],
    ⟨[(.gamesAndEntertainment, Budget.init .gamesAndEntertainment 100),
      (.clothingAndAccessories, Budget.init .clothingAndAccessories 100),
      (.eatingOut, ⟨.eatingOut, 100, 101, true⟩),
      (.miscellaneous, Budget.init .miscellaneous 100)]⟩, false⟩

/-- Witness for C1: on `rebelOneLocked` (one budget already locked), a $102
transaction against the fresh $100 Miscellaneous budget is accepted, locks
that budget too, the locked count reaches 2 (last conjunct, evaluated), so
the account locks and everything submitted afterwards is rejected through
the account-locked branch. -/
theorem C1_strict_cascading_lock_witness :
    ((Asg1.recordTransaction rebelOneLocked ⟨1, 102, .miscellaneous, "Toys"⟩).1 = .accepted
    ∧ (∃ b2, (Asg1.recordTransaction rebelOneLocked
          ⟨1, 102, .miscellaneous, "Toys"⟩).2.1.budgetManager.getBudget .miscellaneous
        = some b2 ∧ b2.locked = true)
    ∧ (2 ≤ (Asg1.recordTransaction rebelOneLocked
          ⟨1, 102, .miscellaneous, "Toys"⟩).2.1.budgetManager.noLockedBudgets →
        (Asg1.recordTransaction rebelOneLocked
          ⟨1, 102, .miscellaneous, "Toys"⟩).2.1.locked = true
        ∧ ∀ (ts : List (Transaction Asg1.BudgetCategory))
            (t2 : Transaction Asg1.BudgetCategory),
          (Asg1.recordTransaction (Asg1.applyAll
              (Asg1.recordTransaction rebelOneLocked
                ⟨1, 102, .miscellaneous, "Toys"⟩).2.1 ts) t2).1
            = .rejectedAccountLocked))
    ∧ 2 ≤ (Asg1.recordTransaction rebelOneLocked
        ⟨1, 102, .miscellaneous, "Toys"⟩).2.1.budgetManager.noLockedBudgets := by
  have h := C1_strict_cascading_lock rebelOneLocked ⟨1, 102, .miscellaneous, "Toys"⟩
    ⟨.miscellaneous, 100, 0, false⟩ rfl rfl (by decide) rfl rfl (by norm_num)
  refine ⟨⟨h.1, h.2.1, h.2.2⟩, ?_⟩
  simp +decide only [Asg1.recordTransaction, Asg1.warnAndLockIfNeeded, Asg1.acceptedInterim,
    BudgetManager.getBudget, BudgetManager.updateBudget, BudgetManager.noLockedBudgets,
    Budget.exceededFrac, Budget.lock, Budget.init, rebelOneLocked, List.find?, List.map,
    List.filter]
  norm_num

/-- Claim C5: Moderate (Troublemaker) profile — an accepted transaction
that brings the post-transaction exceeded ratio strictly above 1.2 makes
the policy lock that budget, emitting exactly a LockBudget plus the review
request (no Notify in that branch), after which every transaction attempt
against that category — after any further sequence of submissions, and
whenever it passes the account and funds checks — is rejected with
BudgetLocked; a ratio in (1, 1.2] emits exactly a Notify plus review, and a
ratio in (0.75, 1] emits exactly a Warn at the 75% threshold plus review. -/
theorem C5_moderate_locks_and_bands (a : Asg1.BankAccount)
    (t : Transaction Asg1.BudgetCategory) (b : Budget Asg1.BudgetCategory)
    (hu : a.userType = .troublemaker) (hl : a.locked = false)
    (hbal : t.amount ≤ a.bankBalance)
    (hb : a.budgetManager.getBudget t.budgetCategory = some b) (hbl : b.locked = false) :
    (Asg1.recordTransaction a t).1 = .accepted
    ∧ (6/5 < (b.amountSpent + t.amount) / b.totalAmount →
        (Asg1.recordTransaction a t).2.2
          = [.lockBudget t.budgetCategory, .review t.budgetCategory]
        ∧ (∃ b2, (Asg1.recordTransaction a t).2.1.budgetManager.getBudget t.budgetCategory
            = some b2 ∧ b2.locked = true)
        ∧ (∀ (ts : List (Transaction Asg1.BudgetCategory))
              (t2 : Transaction Asg1.BudgetCategory),
            t2.budgetCategory = t.budgetCategory →
            t2.amount ≤ (Asg1.applyAll (Asg1.recordTransaction a t).2.1 ts).bankBalance →
            (Asg1.recordTransaction
                (Asg1.applyAll (Asg1.recordTransaction a t).2.1 ts) t2).1
              = .rejectedBudgetLocked))
    ∧ (1 < (b.amountSpent + t.amount) / b.totalAmount →
        (b.amountSpent + t.amount) / b.totalAmount ≤ 6/5 →
        (Asg1.recordTransaction a t).2.2
          = [.notify t.budgetCategory, .review t.budgetCategory])
    ∧ (3/4 < (b.amountSpent + t.amount) / b.totalAmount →
        (b.amountSpent + t.amount) / b.totalAmount ≤ 1 →
        (Asg1.recordTransaction a t).2.2
          = [.warn t.budgetCategory 75, .review t.budgetCategory]) := by
  have he := Asg1.record_accept_eq a t b hl hbal hb hbl
  have hbi : (Asg1.acceptedInterim a t).budgetManager.getBudget t.budgetCategory
      = some { b with amountSpent := b.amountSpent + t.amount } := by
    rw [Asg1.getBudget_interim_self, hb]
    rfl
  have hui : (Asg1.acceptedInterim a t).userType = .troublemaker := hu
  have heval := Asg1.hook_tm_eval (Asg1.acceptedInterim a t) t _ hui hbi
  have hune : a.userType ≠ .rebel := by
    rw [hu]
    exact fun hc => UserType.noConfusion hc
  refine ⟨by rw [he], ?_, ?_, ?_⟩
  · intro h6
    have hb2 : (Asg1.recordTransaction a t).2.1.budgetManager.getBudget t.budgetCategory
        = some (Budget.lock { b with amountSpent := b.amountSpent + t.amount }) := by
      rw [he]
      show (Asg1.warnAndLockIfNeeded (Asg1.acceptedInterim a t)
          t).1.budgetManager.getBudget t.budgetCategory = _
      rw [heval]
      simp only [Budget.exceededFrac]
      rw [if_pos h6]
      show ((Asg1.acceptedInterim a t).budgetManager.updateBudget t.budgetCategory
          Budget.lock).getBudget t.budgetCategory = _
      rw [getBudget_updateBudget_self, hbi]
      rfl
    refine ⟨?_, ⟨_, hb2, rfl⟩, ?_⟩
    · rw [he]
      show (Asg1.warnAndLockIfNeeded (Asg1.acceptedInterim a t) t).2 = _
      rw [heval]
      simp only [Budget.exceededFrac]
      rw [if_pos h6]
    · exact Asg1.tm_budget_locked_rejects _
        ((Asg1.record_userType a t).trans hu)
        ((Asg1.record_locked_of_ne_rebel a t hune).trans hl)
        t.budgetCategory _ hb2 rfl
  · intro h1 h2
    rw [he]
    show (Asg1.warnAndLockIfNeeded (Asg1.acceptedInterim a t) t).2 = _
    rw [heval]
    simp only [Budget.exceededFrac]
    rw [if_neg (not_lt.mpr h2), if_pos h1]
  · intro h1 h2
    rw [he]
    show (Asg1.warnAndLockIfNeeded (Asg1.acceptedInterim a t) t).2 = _
    rw [heval]
    simp only [Budget.exceededFrac]
    rw [if_neg (not_lt.mpr (h2.trans (by norm_num))),
      if_neg (not_lt.mpr h2), if_pos h1]

/-- Witness for C5: the Troublemaker test account spending $121 against the
fresh $100 Eating Out budget (ratio 1.21 > 1.2). -/
theorem C5_moderate_locks_and_bands_witness :
    (Asg1.recordTransaction Asg1.loadTestAccount ⟨0, 121, .eatingOut, "A&W"⟩).1 = .accepted
    ∧ ((6 : ℚ)/5 < (0 + 121) / 100 →
        (Asg1.recordTransaction Asg1.loadTestAccount ⟨0, 121, .eatingOut, "A&W"⟩).2.2
          = [.lockBudget .eatingOut, .review .eatingOut]
        ∧ (∃ b2, (Asg1.recordTransaction Asg1.loadTestAccount
              ⟨0, 121, .eatingOut, "A&W"⟩).2.1.budgetManager.getBudget .eatingOut
            = some b2 ∧ b2.locked = true)
        ∧ (∀ (ts : List (Transaction Asg1.BudgetCategory))
              (t2 : Transaction Asg1.BudgetCategory),
            t2.budgetCategory = .eatingOut →
            t2.amount ≤ (Asg1.applyAll (Asg1.recordTransaction Asg1.loadTestAccount
                ⟨0, 121, .eatingOut, "A&W"⟩).2.1 ts).bankBalance →
            (Asg1.recordTransaction (Asg1.applyAll
                (Asg1.recordTransaction Asg1.loadTestAccount
                  ⟨0, 121, .eatingOut, "A&W"⟩).2.1 ts) t2).1
              = .rejectedBudgetLocked))
    ∧ ((1 : ℚ) < (0 + 121) / 100 → (0 + 121 : ℚ) / 100 ≤ 6/5 →
        (Asg1.recordTransaction Asg1.loadTestAccount ⟨0, 121, .eatingOut, "A&W"⟩).2.2
          = [.notify .eatingOut, .review .eatingOut])
    ∧ ((3 : ℚ)/4 < (0 + 121) / 100 → (0 + 121 : ℚ) / 100 ≤ 1 →
        (Asg1.recordTransaction Asg1.loadTestAccount ⟨0, 121, .eatingOut, "A&W"⟩).2.2
          = [.warn .eatingOut 75, .review .eatingOut]) :=
  C5_moderate_locks_and_bands Asg1.loadTestAccount ⟨0, 121, .eatingOut, "A&W"⟩
    (Budget.init .eatingOut 100) rfl rfl (by decide) rfl rfl

/-- Claim C6: a Permissive (Angel) account never locks anything — starting
from an unlocked account whose budgets are all unlocked, after any sequence
of submitted transactions the account's locked flag is still false and
every budget is still unlocked; moreover an accepted transaction that
brings the post-transaction exceeded ratio into (0.9, 1] emits exactly a
Warn at the 90% threshold (plus the review request), and one that brings it
above 1 emits exactly a Notify (plus the review request). -/
theorem C6_permissive_never_locks (a : Asg1.BankAccount)
    (hu : a.userType = .angel) (hl : a.locked = false)
    (hm : a.budgetManager.allUnlocked) :
    (∀ ts, (Asg1.applyAll a ts).locked = false
      ∧ (Asg1.applyAll a ts).budgetManager.allUnlocked)
    ∧ (∀ (t : Transaction Asg1.BudgetCategory) (b : Budget Asg1.BudgetCategory),
        a.budgetManager.getBudget t.budgetCategory = some b →
        t.amount ≤ a.bankBalance →
        (Asg1.recordTransaction a t).1 = .accepted
        ∧ (9/10 < (b.amountSpent + t.amount) / b.totalAmount →
            (b.amountSpent + t.amount) / b.totalAmount ≤ 1 →
            (Asg1.recordTransaction a t).2.2
              = [.warn t.budgetCategory 90, .review t.budgetCategory])
        ∧ (1 < (b.amountSpent + t.amount) / b.totalAmount →
            (Asg1.recordTransaction a t).2.2
              = [.notify t.budgetCategory, .review t.budgetCategory])) := by
  constructor
  · intro ts
    exact (Asg1.applyAll_angel_inv a ts hu hl hm).2
  · intro t b hb hbal
    have hbl : b.locked = false := allUnlocked_getBudget a.budgetManager hm _ b hb
    have he := Asg1.record_accept_eq a t b hl hbal hb hbl
    have hbi : (Asg1.acceptedInterim a t).budgetManager.getBudget t.budgetCategory
        = some { b with amountSpent := b.amountSpent + t.amount } := by
      rw [Asg1.getBudget_interim_self, hb]
      rfl
    have hui : (Asg1.acceptedInterim a t).userType = .angel := hu
    have heval := Asg1.hook_angel_eval (Asg1.acceptedInterim a t) t _ hui hbi
    refine ⟨by rw [he], ?_, ?_⟩
    · intro h1 h2
      show (Asg1.recordTransaction a t).2.2 = _
      rw [he]
      show (Asg1.warnAndLockIfNeeded (Asg1.acceptedInterim a t) t).2 = _
      rw [heval]
      simp only [Budget.exceededFrac]
      rw [if_neg (not_lt.mpr h2), if_pos h1]
    · intro h1
      show (Asg1.recordTransaction a t).2.2 = _
      rw [he]
      show (Asg1.warnAndLockIfNeeded (Asg1.acceptedInterim a t) t).2 = _
      rw [heval]
      simp only [Budget.exceededFrac]
      rw [if_pos h1]

/-- Witness for C6 at a fresh Angel account over the test budgets: a $95
transaction against a $100 Eating Out budget (ratio 0.95) warns at 90%, a
separate $101 transaction (ratio 1.01) notifies, and no sequence ever
locks anything. -/
theorem C6_permissive_never_locks_witness :
    (∀ ts, (Asg1.applyAll
        ⟨.angel, "123123", "HSBC", 1000, [], Asg1.loadTestBudgetManager, false⟩ ts).locked
          = false
      ∧ (Asg1.applyAll
          ⟨.angel, "123123", "HSBC", 1000, [], Asg1.loadTestBudgetManager, false⟩
          ts).budgetManager.allUnlocked)
    ∧ (∀ (t : Transaction Asg1.BudgetCategory) (b : Budget Asg1.BudgetCategory),
        Asg1.loadTestBudgetManager.getBudget t.budgetCategory = some b →
        t.amount ≤ (1000 : ℚ) →
        (Asg1.recordTransaction
            ⟨.angel, "123123", "HSBC", 1000, [], Asg1.loadTestBudgetManager, false⟩ t).1
          = .accepted
        ∧ (9/10 < (b.amountSpent + t.amount) / b.totalAmount →
            (b.amountSpent + t.amount) / b.totalAmount ≤ 1 →
            (Asg1.recordTransaction
                ⟨.angel, "123123", "HSBC", 1000, [], Asg1.loadTestBudgetManager, false⟩ t).2.2
              = [.warn t.budgetCategory 90, .review t.budgetCategory])
        ∧ (1 < (b.amountSpent + t.amount) / b.totalAmount →
            (Asg1.recordTransaction
                ⟨.angel, "123123", "HSBC", 1000, [], Asg1.loadTestBudgetManager, false⟩ t).2.2
              = [.notify t.budgetCategory, .review t.budgetCategory])) :=
  C6_permissive_never_locks
    ⟨.angel, "123123", "HSBC", 1000, [], Asg1.loadTestBudgetManager, false⟩
    rfl rfl (by decide)

/-- Claim C4 counterexample: an unlocked account with ample balance and a
registry in which Miscellaneous was never registered.  `record_transaction`
does not return an `UnknownCategory` rejection result: `get_budget` returns
`None` and the subsequent `budget.locked` attribute access raises an
uncaught `AttributeError` — an exception crossing the component boundary,
modelled by the `raisesAttributeError` outcome, which is none of the
rejection-result outcomes.  (No state is mutated, which is the part of the
claim that does hold.) -/
theorem C4_counterexample :
    (Asg1.recordTransaction
        ⟨.troublemaker, "123123", "HSBC", 1000, [],
          ⟨[(.eatingOut, Budget.init .eatingOut 100)]⟩, false⟩
        ⟨0, 10, .miscellaneous, "A&W"⟩).1 = .raisesAttributeError
    ∧ (Asg1.recordTransaction
        ⟨.troublemaker, "123123", "HSBC", 1000, [],
          ⟨[(.eatingOut, Budget.init .eatingOut 100)]⟩, false⟩
        ⟨0, 10, .miscellaneous, "A&W"⟩).2.1
      = ⟨.troublemaker, "123123", "HSBC", 1000, [],
          ⟨[(.eatingOut, Budget.init .eatingOut 100)]⟩, false⟩ := by
  exact ⟨rfl, rfl⟩

/-- Claim C4 as amended: for every transaction whose category was never
registered, submitted to an unlocked account with sufficient balance (so
that the earlier checks pass), `record_transaction` raises an uncaught
`AttributeError` (from `None.locked`) instead of returning a rejection
result; no state is mutated and no escalation effect is emitted. -/
theorem C4_amended_unknown_category_raises (a : Asg1.BankAccount)
    (t : Transaction Asg1.BudgetCategory)
    (hl : a.locked = false) (hbal : t.amount ≤ a.bankBalance)
    (hb : a.budgetManager.getBudget t.budgetCategory = none) :
    Asg1.recordTransaction a t = (.raisesAttributeError, a, []) := by
  simp [Asg1.recordTransaction, hl, not_lt.mpr hbal, hb]

/-- Witness for the amended C4 at the concrete registry missing
Miscellaneous. -/
theorem C4_amended_unknown_category_raises_witness :
    Asg1.recordTransaction
        ⟨.troublemaker, "123123", "HSBC", 1000, [],
          ⟨[(.eatingOut, Budget.init .eatingOut 100)]⟩, false⟩
        ⟨0, 10, .miscellaneous, "A&W"⟩
      = (.raisesAttributeError,
          ⟨.troublemaker, "123123", "HSBC", 1000, [],
            ⟨[(.eatingOut, Budget.init .eatingOut 100)]⟩, false⟩, []) :=
  C4_amended_unknown_category_raises _ _ rfl (by decide) rfl

/-- Claim C8 counterexample: `Budget.__init__` performs no validation, so
constructing a Budget with the non-positive allocation −5 does not fail
with `InvalidConfiguration` (or at all): it returns a Budget whose
`total_amount` is −5 — refuting both that construction fails and that every
successfully constructed Budget has `allocated > 0`. -/
theorem C8_counterexample :
    Budget.init Asg1.BudgetCategory.eatingOut (-5)
      = { category := .eatingOut, totalAmount := -5, amountSpent := 0, locked := false }
    ∧ ¬(0 : ℚ) < (Budget.init Asg1.BudgetCategory.eatingOut (-5)).totalAmount := by
  exact ⟨rfl, by decide⟩

/-- Claim C8 as amended: the Budget constructor accepts any allocation,
including non-positive ones, and simply assigns the fields
(`amount_spent = 0`, unlocked); it never fails at construction time.
Positivity of the allocation is enforced only by the interactive
`BudgetCreator.create_budget` input loop, outside the constructor. -/
theorem C8_amended_constructor_never_validates (c : Asg1.BudgetCategory) (q : ℚ)
    (_h : q ≤ 0) :
    Budget.init c q
      = { category := c, totalAmount := q, amountSpent := 0, locked := false } := rfl

/-- Witness for the amended C8 at allocation −5. -/
theorem C8_amended_constructor_never_validates_witness :
    Budget.init Asg1.BudgetCategory.eatingOut (-5)
      = { category := Asg1.BudgetCategory.eatingOut, totalAmount := -5, amountSpent := 0,
          locked := false } :=
  C8_amended_constructor_never_validates .eatingOut (-5) (by decide)

end FAM
